import Mathlib

/- Verification development for the update-orchestration core of the
   ha-ideenergy Home Assistant integration
   (custom_components/ideenergy/datacoordinator.py).

   Shallow embedding conventions:
   * Python dicts used as data snapshots are modelled as partial maps
     `String → Option Value`; dict literals returned by the fetch routines
     are transcribed as association lists and injected with `Dict.ofList`.
     `a | b` and `a.update(b)` are both the right-biased `Dict.update`.
   * `datetime.datetime` values carried by historical line items are
     modelled with their wall-clock fields and an optional `tzinfo`
     (`PyDatetime`); `replace(tzinfo=...)` swaps only the `tzinfo` field,
     which is exactly Python's semantics.  The naive timestamps used for
     the trailing fetch window (`datetime.today()` arithmetic) are
     modelled on a linear time axis as integers, since Python naive
     datetime ± timedelta is exact linear-time arithmetic.
   * One tick of the coordinator is a pure function of a per-tick
     environment `Env` that fixes, for this tick, each dataset's barrier
     outcome (`barriers`: `none` models a dataset missing from the
     `self.barriers` dict, i.e. the `KeyError` branch) and each upstream
     API endpoint's response (`ApiResponses`, `Except` models a raised
     exception).  The `Barrier` class itself lives in barrier.py and the
     API client in the external `ideenergy` package, both outside the
     embedded module; only their call/raise interface is modelled, which
     is all datacoordinator.py observes.
   * Exceptions absorbed by the `except` clauses of the update loop are
     the constructors of `FetchError`; `raise NotImplementedError()` is
     `FetchError.notImplementedError`; `raise ValueError(...)` at the
     timezone precondition is the `Except.error` branch of the tick.
   * Observable actions (log-worthy decisions, upstream API calls,
     `Barrier.success()` invocations) are reified as an `Event` trace so
     that "is never invoked" claims are statable. -/

namespace IdeEnergy

/-- Timezone objects (`datetime.tzinfo` values) relevant to the module:
`timezone.utc`, the configured `LOCAL_TZ`, or some other zone. -/
inductive Tz where
  | utc
  | localZone
  | other (offsetMinutes : Int)
deriving DecidableEq

/-- Python `datetime.datetime`: wall-clock fields plus optional `tzinfo`. -/
structure PyDatetime where
  year : Nat
  month : Nat
  day : Nat
  hour : Nat
  minute : Nat
  second : Nat
  microsecond : Nat
  tzinfo : Option Tz
deriving DecidableEq

/-- `datetime.replace(tzinfo=...)`: swaps the `tzinfo` field and leaves all
wall-clock fields untouched (Python performs no numeric shift here). -/
def PyDatetime.replace_tzinfo (d : PyDatetime) (tz : Option Tz) : PyDatetime :=
  { d with tzinfo := tz }

/-- Modelled from the spec: `LOCAL_TZ` from the integration's `.const`
module (not part of the embedded source file); a fixed configured local
timezone. -/
def LOCAL_TZ : Tz := Tz.localZone

/-- Modelled from the spec: the `DATA_ATTR_*` slot-name constants from the
integration's `.const` module (not part of the embedded source file).
Only their distinctness matters to the coordinator. -/
def DATA_ATTR_MEASURE_ACCUMULATED : String := "measure-accumulated"

/-- Modelled from the spec: see `DATA_ATTR_MEASURE_ACCUMULATED`. -/
def DATA_ATTR_MEASURE_INSTANT : String := "measure-instant"

/-- Modelled from the spec: see `DATA_ATTR_MEASURE_ACCUMULATED`. -/
def DATA_ATTR_HISTORICAL_CONSUMPTION : String := "historical-consumption"

/-- Modelled from the spec: see `DATA_ATTR_MEASURE_ACCUMULATED`. -/
def DATA_ATTR_HISTORICAL_GENERATION : String := "historical-generation"

/-- Modelled from the spec: see `DATA_ATTR_MEASURE_ACCUMULATED`. -/
def DATA_ATTR_HISTORICAL_POWER_DEMAND : String := "historical-power-demand"

/-- Modelled from the spec: `HISTORICAL_PERIOD_LENGHT` (sic) from `.const`,
a fixed timedelta giving the trailing fetch window, here on the linear
(naive-datetime) time axis.  Its magnitude is immaterial to the claims. -/
def HISTORICAL_PERIOD_LENGHT : Int := 30

/-- The `DataSetType` IntFlag: bit values of its members. -/
def DataSetType.NONE : Nat := 0

/-- `MEASURE = 1 << 0`. -/
def DataSetType.MEASURE : Nat := 1 <<< 0

/-- `HISTORICAL_CONSUMPTION = 1 << 1`. -/
def DataSetType.HISTORICAL_CONSUMPTION : Nat := 1 <<< 1

/-- `HISTORICAL_GENERATION = 1 << 2`. -/
def DataSetType.HISTORICAL_GENERATION : Nat := 1 <<< 2

/-- `HISTORICAL_POWER_DEMAND = 1 << 3`. -/
def DataSetType.HISTORICAL_POWER_DEMAND : Nat := 1 <<< 3

/-- `ALL = 0b1111`. -/
def DataSetType.ALL : Nat := 0b1111

/-- The members yielded by `for x in DataSetType`, in definition order
(CPython ≤ 3.10 iterates every named member including the zero value and
the composite alias; on ≥ 3.11 `NONE` and `ALL` are already excluded, and
the source's own filters make both versions produce the same requested
list). -/
def DataSetType.members : List Nat :=
  [DataSetType.NONE, DataSetType.MEASURE, DataSetType.HISTORICAL_CONSUMPTION,
   DataSetType.HISTORICAL_GENERATION, DataSetType.HISTORICAL_POWER_DEMAND,
   DataSetType.ALL]

/-- `ideenergy.Measure`: the object returned by `api.get_measure()`.
Numeric payloads are modelled as integers; their arithmetic is unused. -/
structure Measure where
  accumulate : Int
  instant : Int
deriving DecidableEq

/-- One period line-item of a historical-consumption record: `start`/`end`
timestamps plus an opaque payload. -/
structure PeriodItem where
  start : PyDatetime
  «end» : PyDatetime
  value : Int
deriving DecidableEq

/-- `ideenergy.HistoricalConsumption`: a `periods` list plus the rest of
the record (accumulated totals etc.), opaque to the coordinator. -/
structure HistoricalConsumption where
  accumulated : Int
  periods : List PeriodItem
deriving DecidableEq

/-- `ideenergy.HistoricalGeneration`: opaque to the coordinator (the
generation fetch raises before ever returning it). -/
structure HistoricalGeneration where
  payload : Int
deriving DecidableEq

/-- One dated line-item of a power-demand record: a `dt` timestamp plus an
opaque payload. -/
structure DatedItem where
  dt : PyDatetime
  value : Int
deriving DecidableEq

/-- `ideenergy.HistoricalPowerDemand`: a `demands` list. -/
structure HistoricalPowerDemand where
  demands : List DatedItem
deriving DecidableEq

/-- Values stored in the coordinator's dictionaries: Python `None` and the
payloads produced by the fetch routines. -/
inductive Value where
  | none
  | int (n : Int)
  | consumption (r : HistoricalConsumption)
  | generation (r : HistoricalGeneration)
  | powerDemand (r : HistoricalPowerDemand)
deriving DecidableEq

/-- A Python dict keyed by slot-name strings, as a partial map. -/
def Dict : Type := String → Option Value

/-- The empty dict `{}`. -/
def Dict.empty : Dict := fun _ => Option.none

/-- Dict lookup. -/
def Dict.get (d : Dict) (k : String) : Option Value := d k

/-- A dict literal, from its association list (first binding wins; every
literal in the source has distinct keys). -/
def Dict.ofList (l : List (String × Value)) : Dict :=
  fun k => (l.find? (fun p => p.1 == k)).map (fun p => p.2)

/-- `a | b` / `a.update(b)`: right-biased merge — keys of `b` overwrite,
keys absent from `b` keep their value in `a`. -/
def Dict.update (a b : Dict) : Dict :=
  fun k =>
    match b k with
    | some v => some v
    | Option.none => a k

/-- The exceptions a fetch routine can raise, one constructor per `except`
clause of the update loop (`UnicodeDecodeError`,
`ideenergy.RequestFailedError`, `ideenergy.CommandError`, the blanket
`Exception`) plus `NotImplementedError` raised by the generation routine
(absorbed by the blanket clause). -/
inductive FetchError where
  | unicodeDecodeError
  | requestFailedError (status : Nat) (reason : String)
  | commandError (msg : String)
  | notImplementedError
  | other (msg : String)
deriving DecidableEq

/-- The outcome of `Barrier.check()` for one dataset on this tick:
either it returns normally or it raises `BarrierDeniedError(reason)`. -/
inductive BarrierOutcome where
  | allowed
  | denied (reason : String)
deriving DecidableEq

/-- One upstream API invocation, with its arguments. -/
inductive ApiCall where
  | getMeasure
  | getHistoricalConsumption (start «end» : Int)
  | getHistoricalGeneration (start «end» : Int)
  | getHistoricalPowerDemand
deriving DecidableEq

/-- Observable per-dataset actions of one tick, in program order:
the `KeyError` skip, the denial skip, the "update allowed" point, each
upstream API call, a caught fetch exception, the unreachable
"not implemented yet" skip, and the `Barrier.success()` invocation. -/
inductive Event where
  | ignoredNoBarrier (dataset : Nat)
  | denied (dataset : Nat) (reason : String)
  | allowed (dataset : Nat)
  | apiCall (dataset : Nat) (call : ApiCall)
  | updateError (dataset : Nat) (e : FetchError)
  | notImplementedYet (dataset : Nat)
  | barrierSuccess (dataset : Nat)
deriving DecidableEq

/-- The dataset an event is about. -/
def Event.dataset : Event → Nat
  | Event.ignoredNoBarrier d => d
  | Event.denied d _ => d
  | Event.allowed d => d
  | Event.apiCall d _ => d
  | Event.updateError d _ => d
  | Event.notImplementedYet d => d
  | Event.barrierSuccess d => d

/-- The responses of the four upstream endpoints for this tick; an
`Except.error` models the call raising. -/
structure ApiResponses where
  measure : Except FetchError Measure
  historicalConsumption : Except FetchError HistoricalConsumption
  historicalGeneration : Except FetchError HistoricalGeneration
  historicalPowerDemand : Except FetchError HistoricalPowerDemand

/-- The per-tick environment: barrier outcomes (`none` = the dataset is
missing from the `self.barriers` dict), API responses, `datetime.today()`
on the linear time axis, and the wall clock behind `dt_util.utcnow()`. -/
structure Env where
  barriers : Nat → Option BarrierOutcome
  api : ApiResponses
  today : Int
  utcnowWall : PyDatetime

/-- `dt_util.utcnow()`: always a UTC-timezone-aware datetime. -/
def Env.utcnow (env : Env) : PyDatetime :=
  { env.utcnowWall with tzinfo := some Tz.utc }

/-- `normalize_period_item`: attach `LOCAL_TZ` to `start` and `end` in
place; no other field changes. -/
def normalize_period_item (item : PeriodItem) : PeriodItem :=
  { item with
      start := item.start.replace_tzinfo (some LOCAL_TZ),
      «end» := item.«end».replace_tzinfo (some LOCAL_TZ) }

/-- `normalize_dated_item`: attach `LOCAL_TZ` to `dt` in place. -/
def normalize_dated_item (item : DatedItem) : DatedItem :=
  { item with dt := item.dt.replace_tzinfo (some LOCAL_TZ) }

/-- `IDeCoordinator.get_direct_reading_data`: call `api.get_measure()` and
return the two measure slots.  The first component records the upstream
calls issued, the second the returned dict or the raised exception. -/
def get_direct_reading_data (env : Env) :
    List ApiCall × Except FetchError (List (String × Value)) :=
  ([ApiCall.getMeasure],
   match env.api.measure with
   | Except.error e => Except.error e
   | Except.ok data =>
     Except.ok
       [(DATA_ATTR_MEASURE_ACCUMULATED, Value.int data.accumulate),
        (DATA_ATTR_MEASURE_INSTANT, Value.int data.instant)])

/-- `IDeCoordinator.get_historical_consumption_data`: fetch the trailing
window `today - HISTORICAL_PERIOD_LENGHT .. today`, normalize each period
item, return the consumption slot. -/
def get_historical_consumption_data (env : Env) :
    List ApiCall × Except FetchError (List (String × Value)) :=
  let «end» := env.today
  let start := «end» - HISTORICAL_PERIOD_LENGHT
  ([ApiCall.getHistoricalConsumption start «end»],
   match env.api.historicalConsumption with
   | Except.error e => Except.error e
   | Except.ok data =>
     Except.ok
       [(DATA_ATTR_HISTORICAL_CONSUMPTION,
         Value.consumption
           { data with periods := data.periods.map normalize_period_item })])

/-- `IDeCoordinator.get_historical_generation_data`: fetch the same
trailing window, then `raise NotImplementedError()` — the trailing
`return` with the generation slot is unreachable dead code. -/
def get_historical_generation_data (env : Env) :
    List ApiCall × Except FetchError (List (String × Value)) :=
  let «end» := env.today
  let start := «end» - HISTORICAL_PERIOD_LENGHT
  ([ApiCall.getHistoricalGeneration start «end»],
   match env.api.historicalGeneration with
   | Except.error e => Except.error e
   | Except.ok _data => Except.error FetchError.notImplementedError)

/-- `IDeCoordinator.get_historical_power_demand_data`: fetch with no
explicit window, normalize each dated item, return the power-demand slot. -/
def get_historical_power_demand_data (env : Env) :
    List ApiCall × Except FetchError (List (String × Value)) :=
  ([ApiCall.getHistoricalPowerDemand],
   match env.api.historicalPowerDemand with
   | Except.error e => Except.error e
   | Except.ok data =>
     Except.ok
       [(DATA_ATTR_HISTORICAL_POWER_DEMAND,
         Value.powerDemand
           { data with demands := data.demands.map normalize_dated_item })])

/-- One `data.update(await ...)` dispatch step plus the subsequent
`Barrier.success()` call, given the routine's call list and outcome:
every raised exception is caught (`continue`), a returned fragment is
merged into the accumulating dict and success is recorded. -/
def step (data : Dict) (dataset : Nat) (pre : List Event)
    (r : List ApiCall × Except FetchError (List (String × Value))) :
    Dict × List Event :=
  match r with
  | (calls, Except.error e) =>
    (data, pre ++ calls.map (Event.apiCall dataset) ++ [Event.updateError dataset e])
  | (calls, Except.ok frag) =>
    (Dict.update data (Dict.ofList frag),
     pre ++ calls.map (Event.apiCall dataset) ++ [Event.barrierSuccess dataset])

/-- The body of the `for dataset in requested` loop for one dataset:
barrier lookup/check (`KeyError` → ignored, `BarrierDeniedError` →
denied), then the `if/elif` fetch dispatch, whose `else` arm logs
"not implemented yet" and contributes nothing. -/
def processDataset (env : Env) (data : Dict) (dataset : Nat) :
    Dict × List Event :=
  match env.barriers dataset with
  | Option.none => (data, [Event.ignoredNoBarrier dataset])
  | some (BarrierOutcome.denied reason) => (data, [Event.denied dataset reason])
  | some BarrierOutcome.allowed =>
    let pre := [Event.allowed dataset]
    if dataset = DataSetType.MEASURE then
      step data dataset pre (get_direct_reading_data env)
    else if dataset = DataSetType.HISTORICAL_CONSUMPTION then
      step data dataset pre (get_historical_consumption_data env)
    else if dataset = DataSetType.HISTORICAL_GENERATION then
      step data dataset pre (get_historical_generation_data env)
    else if dataset = DataSetType.HISTORICAL_POWER_DEMAND then
      step data dataset pre (get_historical_power_demand_data env)
    else
      (data, pre ++ [Event.notImplementedYet dataset])

/-- The `for dataset in requested` loop: thread the accumulating dict
through the datasets in enumeration order, concatenating event traces. -/
def updateLoop (env : Env) : Dict → List Nat → Dict × List Event
  | data, [] => (data, [])
  | data, dataset :: rest =>
    let r := processDataset env data dataset
    let r2 := updateLoop env r.1 rest
    (r2.1, r.2 ++ r2.2)

/-- The `requested` list of `_async_update_data_raw`: every enumerated
member except the `ALL` sentinel whose bit intersects the requested
bitmask. -/
def requestedList (datasets : Nat) : List Nat :=
  (DataSetType.members.filter (fun x => x != DataSetType.ALL)).filter
    (fun x => x &&& datasets != 0)

/-- `IDeCoordinator._async_update_data_raw`: default `now` to
`dt_util.utcnow()`, enforce the UTC-tzinfo precondition
(`raise ValueError` otherwise, before any dataset is enumerated), then
run the update loop on a fresh dict.  Returns the event trace and either
the accumulated dict or the raised `ValueError` message. -/
def _async_update_data_raw (env : Env) (datasets : Nat)
    (nowArg : Option PyDatetime) : List Event × Except String Dict :=
  let now := nowArg.getD env.utcnow
  if now.tzinfo = some Tz.utc then
    let r := updateLoop env Dict.empty (requestedList datasets)
    (r.2, Except.ok r.1)
  else
    ([], Except.error ("now is missing tzinfo field"))

/-- A registered sensor: `IDeEntity` as seen by the coordinator, exposing
its declared dataset-need flags. -/
structure IDeEntity where
  I_DE_DATA_SETS : List Nat
deriving DecidableEq

/-- The coordinator state the embedded methods touch: the snapshot dict
and the registered sensors. -/
structure IDeCoordinator where
  data : Dict
  sensors : List IDeEntity

/-- The initial snapshot built in `__init__`: every slot present, mapped
to Python `None`. -/
def initialData : Dict :=
  Dict.ofList
    [(DATA_ATTR_MEASURE_ACCUMULATED, Value.none),
     (DATA_ATTR_MEASURE_INSTANT, Value.none),
     (DATA_ATTR_HISTORICAL_CONSUMPTION, Value.none),
     (DATA_ATTR_HISTORICAL_GENERATION, Value.none),
     (DATA_ATTR_HISTORICAL_POWER_DEMAND, Value.none)]

/-- The dataset-union computation of `_async_update_data`:
`ds = NONE; for sensor in self.sensors: for s_ds in sensor.I_DE_DATA_SETS:
ds = ds | s_ds`. -/
def requiredDatasets (sensors : List IDeEntity) : Nat :=
  sensors.foldl
    (fun ds sensor => sensor.I_DE_DATA_SETS.foldl (fun a b => a ||| b) ds)
    DataSetType.NONE

/-- `IDeCoordinator._async_update_data`: compute the requested bitmask
from the registered sensors, run the raw update with the implicit
`utcnow`, and merge the result into the snapshot right-biasedly. -/
def _async_update_data (env : Env) (self : IDeCoordinator) :
    List Event × Except String Dict :=
  let ds := requiredDatasets self.sensors
  let r := _async_update_data_raw env ds Option.none
  (r.1,
   match r.2 with
   | Except.ok updated => Except.ok (Dict.update self.data updated)
   | Except.error e => Except.error e)

/-- `IDeCoordinator.register_sensor`: append to the sensor list. -/
def register_sensor (self : IDeCoordinator) (sensor : IDeEntity) :
    IDeCoordinator :=
  { self with sensors := self.sensors ++ [sensor] }

/-- `IDeCoordinator.unregister_sensor`: remove the first occurrence. -/
def unregister_sensor (self : IDeCoordinator) (sensor : IDeEntity) :
    IDeCoordinator :=
  { self with sensors := self.sensors.erase sensor }

/-- `IDeCoordinator.update_internal_data`: `self.data = self.data | data`. -/
def update_internal_data (self : IDeCoordinator) (data : Dict) :
    IDeCoordinator :=
  { self with data := Dict.update self.data data }

/-- The outcome (`.2`) of the fetch routine the `if/elif` chain dispatches
for a dataset; `none` for datasets with no routine (the `else` arm). -/
def fetchOutcome (env : Env) (dataset : Nat) :
    Option (Except FetchError (List (String × Value))) :=
  if dataset = DataSetType.MEASURE then
    some (get_direct_reading_data env).2
  else if dataset = DataSetType.HISTORICAL_CONSUMPTION then
    some (get_historical_consumption_data env).2
  else if dataset = DataSetType.HISTORICAL_GENERATION then
    some (get_historical_generation_data env).2
  else if dataset = DataSetType.HISTORICAL_POWER_DEMAND then
    some (get_historical_power_demand_data env).2
  else
    Option.none

/-- The fragment a dataset successfully contributes on this tick:
`some frag` exactly when its barrier allows and its fetch returns. -/
def succFrag (env : Env) (dataset : Nat) : Option (List (String × Value)) :=
  match env.barriers dataset with
  | some BarrierOutcome.allowed =>
    match fetchOutcome env dataset with
    | some (Except.ok frag) => some frag
    | _ => Option.none
  | _ => Option.none

/-- The slot keys each dataset's fetch routine can put into a fragment. -/
def dsKeys (dataset : Nat) : List String :=
  if dataset = DataSetType.MEASURE then
    [DATA_ATTR_MEASURE_ACCUMULATED, DATA_ATTR_MEASURE_INSTANT]
  else if dataset = DataSetType.HISTORICAL_CONSUMPTION then
    [DATA_ATTR_HISTORICAL_CONSUMPTION]
  else if dataset = DataSetType.HISTORICAL_GENERATION then
    [DATA_ATTR_HISTORICAL_GENERATION]
  else if dataset = DataSetType.HISTORICAL_POWER_DEMAND then
    [DATA_ATTR_HISTORICAL_POWER_DEMAND]
  else []

/-- The event trace of processing one dataset, which is independent of
the accumulated dict. -/
def eventsOf (env : Env) (dataset : Nat) : List Event :=
  (processDataset env Dict.empty dataset).2

/-- Equality of all wall-clock fields of two datetimes (everything except
`tzinfo`). -/
def wallEq (a b : PyDatetime) : Prop :=
  a.year = b.year ∧ a.month = b.month ∧ a.day = b.day ∧ a.hour = b.hour ∧
  a.minute = b.minute ∧ a.second = b.second ∧ a.microsecond = b.microsecond

/-- A concrete naive timestamp, used to evaluate the theorems. -/
def sampleWall : PyDatetime :=
  { year := 2024, month := 5, day := 6, hour := 7, minute := 8, second := 9,
    microsecond := 10, tzinfo := Option.none }

/-- The same timestamp made UTC-aware. -/
def sampleUtc : PyDatetime := { sampleWall with tzinfo := some Tz.utc }

/-- A concrete consumption record with one period item. -/
def sampleConsumption : HistoricalConsumption :=
  { accumulated := 3,
    periods := [{ start := sampleWall, «end» := sampleWall, value := 9 }] }

/-- A concrete power-demand record with one dated item. -/
def samplePowerDemand : HistoricalPowerDemand :=
  { demands := [{ dt := sampleWall, value := 2 }] }

/-- A concrete generation record. -/
def sampleGeneration : HistoricalGeneration := { payload := 1 }

/-- A tick environment where every barrier allows and every endpoint
responds. -/
def envAllOk : Env :=
  { barriers := fun _ => some BarrierOutcome.allowed,
    api :=
      { measure := Except.ok { accumulate := 100, instant := 7 },
        historicalConsumption := Except.ok sampleConsumption,
        historicalGeneration := Except.ok sampleGeneration,
        historicalPowerDemand := Except.ok samplePowerDemand },
    today := 1000,
    utcnowWall := sampleWall }

/-- Like `envAllOk` but the consumption endpoint raises a decode error. -/
def envConsFail : Env :=
  { envAllOk with
      api := { envAllOk.api with
        historicalConsumption := Except.error FetchError.unicodeDecodeError } }

/-- Like `envAllOk` but no dataset has a barrier configured. -/
def envNoBarrier : Env :=
  { envAllOk with barriers := fun _ => Option.none }

/-- Like `envAllOk` but the generation endpoint itself raises an upstream
request failure. -/
def genFailEnv : Env :=
  { envAllOk with
      api := { envAllOk.api with
        historicalGeneration :=
          Except.error (FetchError.requestFailedError 500 ("server error")) } }

theorem step_fst (data : Dict) (dataset : Nat) (pre : List Event)
    (r : List ApiCall × Except FetchError (List (String × Value))) :
    (step data dataset pre r).1 =
      match r.2 with
      | Except.ok frag => Dict.update data (Dict.ofList frag)
      | Except.error _ => data := by
  rcases r with ⟨calls, res⟩
  cases res <;> rfl

theorem step_snd (data : Dict) (dataset : Nat) (pre : List Event)
    (r : List ApiCall × Except FetchError (List (String × Value))) :
    (step data dataset pre r).2 =
      match r.2 with
      | Except.ok _ =>
        pre ++ r.1.map (Event.apiCall dataset) ++ [Event.barrierSuccess dataset]
      | Except.error e =>
        pre ++ r.1.map (Event.apiCall dataset) ++ [Event.updateError dataset e] := by
  rcases r with ⟨calls, res⟩
  cases res <;> rfl

theorem processDataset_fst (env : Env) (data : Dict) (dataset : Nat) :
    (processDataset env data dataset).1 =
      match succFrag env dataset with
      | some frag => Dict.update data (Dict.ofList frag)
      | Option.none => data := by
  unfold processDataset succFrag fetchOutcome
  cases env.barriers dataset with
  | none => rfl
  | some o =>
    cases o with
    | denied reason => rfl
    | allowed =>
      by_cases h1 : dataset = DataSetType.MEASURE
      · simp only [if_pos h1, step_fst]
        cases (get_direct_reading_data env).2 <;> rfl
      · by_cases h2 : dataset = DataSetType.HISTORICAL_CONSUMPTION
        · simp only [if_neg h1, if_pos h2, step_fst]
          cases (get_historical_consumption_data env).2 <;> rfl
        · by_cases h3 : dataset = DataSetType.HISTORICAL_GENERATION
          · simp only [if_neg h1, if_neg h2, if_pos h3, step_fst]
            cases (get_historical_generation_data env).2 <;> rfl
          · by_cases h4 : dataset = DataSetType.HISTORICAL_POWER_DEMAND
            · simp only [if_neg h1, if_neg h2, if_neg h3, if_pos h4, step_fst]
              cases (get_historical_power_demand_data env).2 <;> rfl
            · simp only [if_neg h1, if_neg h2, if_neg h3, if_neg h4]

theorem processDataset_snd (env : Env) (data : Dict) (dataset : Nat) :
    (processDataset env data dataset).2 = eventsOf env dataset := by
  unfold eventsOf processDataset
  cases env.barriers dataset with
  | none => rfl
  | some o =>
    cases o with
    | denied reason => rfl
    | allowed =>
      by_cases h1 : dataset = DataSetType.MEASURE
      · simp only [if_pos h1, step_snd]
      · by_cases h2 : dataset = DataSetType.HISTORICAL_CONSUMPTION
        · simp only [if_neg h1, if_pos h2, step_snd]
        · by_cases h3 : dataset = DataSetType.HISTORICAL_GENERATION
          · simp only [if_neg h1, if_neg h2, if_pos h3, step_snd]
          · by_cases h4 : dataset = DataSetType.HISTORICAL_POWER_DEMAND
            · simp only [if_neg h1, if_neg h2, if_neg h3, if_pos h4, step_snd]
            · simp only [if_neg h1, if_neg h2, if_neg h3, if_neg h4]

theorem updateLoop_snd (env : Env) (data : Dict) (L : List Nat) :
    (updateLoop env data L).2 = (L.map (eventsOf env)).flatten := by
  induction L generalizing data with
  | nil => rfl
  | cons ds rest ih =>
    show (processDataset env data ds).2 ++ (updateLoop env (processDataset env data ds).1 rest).2 = _
    rw [processDataset_snd, ih]
    simp [List.flatten]

theorem updateLoop_fst_get (env : Env) (data : Dict) (L : List Nat) (k : String)
    (h : ∀ ds ∈ L, ∀ frag, succFrag env ds = some frag →
          Dict.ofList frag k = Option.none) :
    (updateLoop env data L).1 k = data k := by
  induction L generalizing data with
  | nil => rfl
  | cons ds rest ih =>
    show (updateLoop env (processDataset env data ds).1 rest).1 k = data k
    rw [ih (processDataset env data ds).1
        (fun ds' hm => h ds' (List.mem_cons_of_mem _ hm))]
    rw [processDataset_fst]
    cases hs : succFrag env ds with
    | none => rfl
    | some frag =>
      show Dict.update data (Dict.ofList frag) k = data k
      unfold Dict.update
      rw [h ds (List.mem_cons_self _ _) frag hs]

theorem ofList_get_eq_none (l : List (String × Value)) (k : String)
    (h : k ∉ l.map Prod.fst) : Dict.ofList l k = Option.none := by
  unfold Dict.ofList
  rw [List.find?_eq_none.2]
  · rfl
  · intro p hp
    simp only [beq_iff_eq]
    intro hk
    exact h (List.mem_map.2 ⟨p, hp, hk⟩)

theorem mem_requestedList {datasets x : Nat} :
    x ∈ requestedList datasets ↔
      ((x = DataSetType.MEASURE ∨ x = DataSetType.HISTORICAL_CONSUMPTION ∨
        x = DataSetType.HISTORICAL_GENERATION ∨
        x = DataSetType.HISTORICAL_POWER_DEMAND) ∧ x &&& datasets ≠ 0) := by
  constructor
  · intro hx
    have h1 := List.mem_filter.1 hx
    have h2 := List.mem_filter.1 h1.1
    have hne15 : x ≠ DataSetType.ALL := by simpa using h2.2
    have hand : x &&& datasets ≠ 0 := by simpa using h1.2
    refine ⟨?_, hand⟩
    have hmem := h2.1
    simp only [DataSetType.members, List.mem_cons, List.not_mem_nil,
      or_false] at hmem
    rcases hmem with rfl | rfl | rfl | rfl | rfl | rfl
    · exact absurd (by simp [DataSetType.NONE]) hand
    · exact Or.inl rfl
    · exact Or.inr (Or.inl rfl)
    · exact Or.inr (Or.inr (Or.inl rfl))
    · exact Or.inr (Or.inr (Or.inr rfl))
    · exact absurd rfl hne15
  · rintro ⟨hfour, hand⟩
    refine List.mem_filter.2 ⟨List.mem_filter.2 ⟨?_, ?_⟩, by simpa using hand⟩
    · rcases hfour with rfl | rfl | rfl | rfl <;> simp [DataSetType.members]
    · rcases hfour with rfl | rfl | rfl | rfl <;> decide

theorem requestedList_nodup (datasets : Nat) : (requestedList datasets).Nodup :=
  List.Nodup.filter _ (List.Nodup.filter _ (by decide))

theorem dsKeys_MEASURE :
    dsKeys DataSetType.MEASURE =
      [DATA_ATTR_MEASURE_ACCUMULATED, DATA_ATTR_MEASURE_INSTANT] := rfl

theorem dsKeys_CONSUMPTION :
    dsKeys DataSetType.HISTORICAL_CONSUMPTION =
      [DATA_ATTR_HISTORICAL_CONSUMPTION] := rfl

theorem dsKeys_GENERATION :
    dsKeys DataSetType.HISTORICAL_GENERATION =
      [DATA_ATTR_HISTORICAL_GENERATION] := rfl

theorem dsKeys_POWER_DEMAND :
    dsKeys DataSetType.HISTORICAL_POWER_DEMAND =
      [DATA_ATTR_HISTORICAL_POWER_DEMAND] := rfl

theorem not_mem_dsKeys_of_ne (ds ds' : Nat)
    (hds : ds = DataSetType.MEASURE ∨ ds = DataSetType.HISTORICAL_CONSUMPTION ∨
      ds = DataSetType.HISTORICAL_GENERATION ∨
      ds = DataSetType.HISTORICAL_POWER_DEMAND)
    (hds' : ds' = DataSetType.MEASURE ∨
      ds' = DataSetType.HISTORICAL_CONSUMPTION ∨
      ds' = DataSetType.HISTORICAL_GENERATION ∨
      ds' = DataSetType.HISTORICAL_POWER_DEMAND)
    (hne : ds ≠ ds') (k : String) (hk : k ∈ dsKeys ds) : k ∉ dsKeys ds' := by
  rcases hds with rfl | rfl | rfl | rfl <;> rcases hds' with rfl | rfl | rfl | rfl <;>
    first
      | exact absurd rfl hne
      | (intro hk'
         simp_all [dsKeys_MEASURE, dsKeys_CONSUMPTION, dsKeys_GENERATION,
           dsKeys_POWER_DEMAND, DATA_ATTR_MEASURE_ACCUMULATED,
           DATA_ATTR_MEASURE_INSTANT, DATA_ATTR_HISTORICAL_CONSUMPTION,
           DATA_ATTR_HISTORICAL_GENERATION, DATA_ATTR_HISTORICAL_POWER_DEMAND])

theorem succFrag_keys (env : Env) (dataset : Nat)
    (frag : List (String × Value)) (h : succFrag env dataset = some frag) :
    frag.map Prod.fst = dsKeys dataset := by
  unfold succFrag fetchOutcome at h
  cases hb : env.barriers dataset with
  | none => rw [hb] at h; exact absurd h (by simp)
  | some o =>
    rw [hb] at h
    cases o with
    | denied reason => exact absurd h (by simp)
    | allowed =>
      by_cases h1 : dataset = DataSetType.MEASURE
      · rw [if_pos h1] at h
        subst h1
        cases hm : env.api.measure with
        | error e => simp [get_direct_reading_data, hm] at h
        | ok m =>
          simp only [get_direct_reading_data, hm] at h
          obtain rfl := Option.some.inj h
          simp [dsKeys_MEASURE]
      · rw [if_neg h1] at h
        by_cases h2 : dataset = DataSetType.HISTORICAL_CONSUMPTION
        · rw [if_pos h2] at h
          subst h2
          cases hm : env.api.historicalConsumption with
          | error e => simp [get_historical_consumption_data, hm] at h
          | ok m =>
            simp only [get_historical_consumption_data, hm] at h
            obtain rfl := Option.some.inj h
            simp [dsKeys_CONSUMPTION]
        · rw [if_neg h2] at h
          by_cases h3 : dataset = DataSetType.HISTORICAL_GENERATION
          · rw [if_pos h3] at h
            subst h3
            cases hm : env.api.historicalGeneration with
            | error e => simp [get_historical_generation_data, hm] at h
            | ok m => simp [get_historical_generation_data, hm] at h
          · rw [if_neg h3] at h
            by_cases h4 : dataset = DataSetType.HISTORICAL_POWER_DEMAND
            · rw [if_pos h4] at h
              subst h4
              cases hm : env.api.historicalPowerDemand with
              | error e => simp [get_historical_power_demand_data, hm] at h
              | ok m =>
                simp only [get_historical_power_demand_data, hm] at h
                obtain rfl := Option.some.inj h
                simp [dsKeys_POWER_DEMAND]
            · rw [if_neg h4] at h
              exact absurd h (by simp)

theorem succFrag_generation (env : Env) :
    succFrag env DataSetType.HISTORICAL_GENERATION = Option.none := by
  unfold succFrag fetchOutcome
  cases hb : env.barriers DataSetType.HISTORICAL_GENERATION with
  | none => rfl
  | some o =>
    cases o with
    | denied reason => rfl
    | allowed =>
      simp only [if_neg (by decide : DataSetType.HISTORICAL_GENERATION ≠ DataSetType.MEASURE),
        if_neg (by decide : DataSetType.HISTORICAL_GENERATION ≠ DataSetType.HISTORICAL_CONSUMPTION),
        if_pos rfl]
      unfold get_historical_generation_data
      cases env.api.historicalGeneration <;> rfl

theorem succFrag_none_of_barrier_none (env : Env) (dataset : Nat)
    (h : env.barriers dataset = Option.none) :
    succFrag env dataset = Option.none := by
  unfold succFrag
  rw [h]

theorem succFrag_none_of_denied (env : Env) (dataset : Nat) (reason : String)
    (h : env.barriers dataset = some (BarrierOutcome.denied reason)) :
    succFrag env dataset = Option.none := by
  unfold succFrag
  rw [h]

theorem succFrag_none_of_error (env : Env) (dataset : Nat) (e : FetchError)
    (h : fetchOutcome env dataset = some (Except.error e)) :
    succFrag env dataset = Option.none := by
  unfold succFrag
  rw [h]
  cases env.barriers dataset with
  | none => rfl
  | some o => cases o <;> rfl

theorem succFrag_isSome_iff (env : Env) (dataset : Nat) :
    (∃ frag, succFrag env dataset = some frag) ↔
      (env.barriers dataset = some BarrierOutcome.allowed ∧
       ∃ frag, fetchOutcome env dataset = some (Except.ok frag)) := by
  unfold succFrag
  cases hb : env.barriers dataset with
  | none => simp
  | some o =>
    cases o with
    | denied reason => simp
    | allowed =>
      simp only [true_and]
      cases hf : fetchOutcome env dataset with
      | none => simp
      | some r => cases r <;> simp

theorem step_snd_dataset (data : Dict) (ds : Nat)
    (r : List ApiCall × Except FetchError (List (String × Value))) :
    ∀ ev ∈ (step data ds [Event.allowed ds] r).2, ev.dataset = ds := by
  rcases r with ⟨calls, res⟩
  cases res with
  | error e =>
    intro ev hev
    simp only [step, List.append_assoc, List.mem_append, List.mem_singleton,
      List.mem_map] at hev
    rcases hev with rfl | ⟨c, _, rfl⟩ | rfl <;> rfl
  | ok frag =>
    intro ev hev
    simp only [step, List.append_assoc, List.mem_append, List.mem_singleton,
      List.mem_map] at hev
    rcases hev with rfl | ⟨c, _, rfl⟩ | rfl <;> rfl

theorem eventsOf_dataset (env : Env) (ds : Nat) :
    ∀ ev ∈ eventsOf env ds, ev.dataset = ds := by
  unfold eventsOf processDataset
  cases env.barriers ds with
  | none =>
    intro ev hev
    simp only [List.mem_singleton] at hev
    subst hev; rfl
  | some o =>
    cases o with
    | denied reason =>
      intro ev hev
      simp only [List.mem_singleton] at hev
      subst hev; rfl
    | allowed =>
      by_cases h1 : ds = DataSetType.MEASURE
      · rw [if_pos h1]; exact step_snd_dataset _ _ _
      · rw [if_neg h1]
        by_cases h2 : ds = DataSetType.HISTORICAL_CONSUMPTION
        · rw [if_pos h2]; exact step_snd_dataset _ _ _
        · rw [if_neg h2]
          by_cases h3 : ds = DataSetType.HISTORICAL_GENERATION
          · rw [if_pos h3]; exact step_snd_dataset _ _ _
          · rw [if_neg h3]
            by_cases h4 : ds = DataSetType.HISTORICAL_POWER_DEMAND
            · rw [if_pos h4]; exact step_snd_dataset _ _ _
            · rw [if_neg h4]
              intro ev hev
              simp only [List.cons_append, List.nil_append, List.mem_cons,
                List.not_mem_nil, or_false] at hev
              rcases hev with rfl | rfl <;> rfl

theorem eventsOf_barrier_none (env : Env) (ds : Nat)
    (h : env.barriers ds = Option.none) :
    eventsOf env ds = [Event.ignoredNoBarrier ds] := by
  unfold eventsOf processDataset
  rw [h]

theorem eventsOf_denied (env : Env) (ds : Nat) (reason : String)
    (h : env.barriers ds = some (BarrierOutcome.denied reason)) :
    eventsOf env ds = [Event.denied ds reason] := by
  unfold eventsOf processDataset
  rw [h]

theorem barrierSuccess_mem_step_iff (data : Dict) (ds : Nat)
    (r : List ApiCall × Except FetchError (List (String × Value))) :
    Event.barrierSuccess ds ∈ (step data ds [Event.allowed ds] r).2 ↔
      ∃ frag, r.2 = Except.ok frag := by
  rcases r with ⟨calls, res⟩
  cases res with
  | error e => simp [step]
  | ok frag => simp [step]

theorem barrierSuccess_mem_eventsOf_iff (env : Env) (ds : Nat) :
    Event.barrierSuccess ds ∈ eventsOf env ds ↔
      (env.barriers ds = some BarrierOutcome.allowed ∧
       ∃ frag, fetchOutcome env ds = some (Except.ok frag)) := by
  unfold eventsOf processDataset
  cases hb : env.barriers ds with
  | none => simp
  | some o =>
    cases o with
    | denied reason => simp
    | allowed =>
      simp only [Option.some.injEq, true_and]
      unfold fetchOutcome
      by_cases h1 : ds = DataSetType.MEASURE
      · rw [if_pos h1, if_pos h1, barrierSuccess_mem_step_iff]
        simp
      · rw [if_neg h1, if_neg h1]
        by_cases h2 : ds = DataSetType.HISTORICAL_CONSUMPTION
        · rw [if_pos h2, if_pos h2, barrierSuccess_mem_step_iff]
          simp
        · rw [if_neg h2, if_neg h2]
          by_cases h3 : ds = DataSetType.HISTORICAL_GENERATION
          · rw [if_pos h3, if_pos h3, barrierSuccess_mem_step_iff]
            simp
          · rw [if_neg h3, if_neg h3]
            by_cases h4 : ds = DataSetType.HISTORICAL_POWER_DEMAND
            · rw [if_pos h4, if_pos h4, barrierSuccess_mem_step_iff]
              simp
            · rw [if_neg h4, if_neg h4]
              simp

theorem trace_filter (env : Env) (L : List Nat) (hnd : L.Nodup) (ds : Nat) :
    ((L.map (eventsOf env)).flatten.filter (fun ev => ev.dataset == ds)) =
      if ds ∈ L then eventsOf env ds else [] := by
  induction L with
  | nil => simp
  | cons a rest ih =>
    have hnd' : rest.Nodup := (List.nodup_cons.1 hnd).2
    have ha : a ∉ rest := (List.nodup_cons.1 hnd).1
    simp only [List.map_cons, List.flatten_cons, List.filter_append, ih hnd']
    by_cases hda : a = ds
    · subst hda
      rw [List.filter_eq_self.2 ?_, if_pos (List.mem_cons_self _ _),
        if_neg ha, List.append_nil]
      intro ev hev
      simp [eventsOf_dataset env a ev hev]
    · rw [List.filter_eq_nil_iff.2 ?_]
      · by_cases hmem : ds ∈ rest
        · rw [if_pos hmem, if_pos (List.mem_cons_of_mem _ hmem),
            List.nil_append]
        · rw [if_neg hmem, if_neg ?_, List.nil_append]
          intro hc
          rcases List.mem_cons.1 hc with h | h
          · exact hda h.symm
          · exact hmem h
      · intro ev hev
        have := eventsOf_dataset env a ev hev
        simp only [beq_iff_eq]
        intro hc
        exact hda (by rw [← this, hc])

theorem raw_trace (env : Env) (datasets : Nat) (now : PyDatetime)
    (hnow : now.tzinfo = some Tz.utc) :
    (_async_update_data_raw env datasets (some now)).1 =
      ((requestedList datasets).map (eventsOf env)).flatten ∧
    (_async_update_data_raw env datasets (some now)).2 =
      Except.ok (updateLoop env Dict.empty (requestedList datasets)).1 := by
  unfold _async_update_data_raw
  simp [Option.getD, hnow, updateLoop_snd]

theorem raw_result_get_none (env : Env) (datasets : Nat) (now : PyDatetime)
    (hnow : now.tzinfo = some Tz.utc) (k : String)
    (h : ∀ ds ∈ requestedList datasets, ∀ frag, succFrag env ds = some frag →
          Dict.ofList frag k = Option.none)
    (d : Dict)
    (hd : (_async_update_data_raw env datasets (some now)).2 = Except.ok d) :
    d.get k = Option.none := by
  rw [(raw_trace env datasets now hnow).2] at hd
  obtain rfl := Except.ok.inj hd
  show (updateLoop env Dict.empty (requestedList datasets)).1 k = Option.none
  rw [updateLoop_fst_get env Dict.empty (requestedList datasets) k h]
  rfl

/-- C3: calling the raw update with an explicitly supplied timestamp whose
`tzinfo` is not UTC (in particular a naive, timezone-less one) fails with
`ValueError("now is missing tzinfo field")` before any dataset is
enumerated: the event trace is empty — no barrier is checked, no barrier
success is recorded, no fetch routine is invoked — and no result map is
produced, so all state is unchanged. -/
theorem C3_naive_timestamp_aborts (env : Env) (datasets : Nat)
    (now : PyDatetime) (h : now.tzinfo ≠ some Tz.utc) :
    _async_update_data_raw env datasets (some now) =
      ([], Except.error ("now is missing tzinfo field")) := by
  unfold _async_update_data_raw
  simp [Option.getD, h]

theorem C3_witness :
    sampleWall.tzinfo ≠ some Tz.utc ∧
      _async_update_data_raw envAllOk DataSetType.ALL (some sampleWall) =
        ([], Except.error ("now is missing tzinfo field")) :=
  ⟨by decide,
   C3_naive_timestamp_aborts envAllOk DataSetType.ALL sampleWall (by decide)⟩

/-- C7: the per-tick enumeration of datasets to process contains neither
the `ALL` sentinel nor the empty `NONE` value, for every requested
bitmask: every enumerated dataset is one of the four concrete members
`MEASURE`, `HISTORICAL_CONSUMPTION`, `HISTORICAL_GENERATION`,
`HISTORICAL_POWER_DEMAND`, so the fetch dispatch is only ever reached for
those. -/
theorem C7_sentinels_never_enumerated (datasets : Nat) :
    ((requestedList datasets).all
        (fun x => (x == DataSetType.MEASURE) ||
          (x == DataSetType.HISTORICAL_CONSUMPTION) ||
          (x == DataSetType.HISTORICAL_GENERATION) ||
          (x == DataSetType.HISTORICAL_POWER_DEMAND)) = true) ∧
    ((requestedList datasets).all (fun x => x != DataSetType.ALL) = true) ∧
    ((requestedList datasets).all (fun x => x != DataSetType.NONE) = true) := by
  refine ⟨?_, ?_, ?_⟩
  · rw [List.all_eq_true]
    intro x hx
    rcases (mem_requestedList.1 hx).1 with rfl | rfl | rfl | rfl <;> decide
  · rw [List.all_eq_true]
    intro x hx
    rcases (mem_requestedList.1 hx).1 with rfl | rfl | rfl | rfl <;> decide
  · rw [List.all_eq_true]
    intro x hx
    rcases (mem_requestedList.1 hx).1 with rfl | rfl | rfl | rfl <;> decide

/-- C4: a dataset with no Barrier configured in the barriers map is never
fetched in any tick, whatever the requested bitmask: its only trace event
is the "update ignored: no barrier defined" skip (present exactly when
its bit is requested) — so no API call, no fetch failure and no barrier
success for it — and it contributes no keys to the tick's result map. -/
theorem C4_no_barrier_never_fetched (env : Env) (datasets : Nat)
    (now : PyDatetime) (hnow : now.tzinfo = some Tz.utc) (ds : Nat)
    (hds : ds = DataSetType.MEASURE ∨ ds = DataSetType.HISTORICAL_CONSUMPTION ∨
      ds = DataSetType.HISTORICAL_GENERATION ∨
      ds = DataSetType.HISTORICAL_POWER_DEMAND)
    (hb : env.barriers ds = Option.none) :
    ((_async_update_data_raw env datasets (some now)).1.filter
        (fun ev => ev.dataset == ds) =
      if ds &&& datasets ≠ 0 then [Event.ignoredNoBarrier ds] else []) ∧
    (∀ d, (_async_update_data_raw env datasets (some now)).2 = Except.ok d →
      ∀ k ∈ dsKeys ds, d.get k = Option.none) := by
  constructor
  · rw [(raw_trace env datasets now hnow).1,
      trace_filter env _ (requestedList_nodup datasets) ds]
    by_cases hreq : ds &&& datasets ≠ 0
    · rw [if_pos (mem_requestedList.2 ⟨hds, hreq⟩), if_pos hreq,
        eventsOf_barrier_none env ds hb]
    · rw [if_neg ?_, if_neg hreq]
      intro hc
      exact hreq (mem_requestedList.1 hc).2
  · intro d hd k hk
    refine raw_result_get_none env datasets now hnow k ?_ d hd
    intro ds' hmem frag hfrag
    by_cases hne : ds' = ds
    · subst hne
      rw [succFrag_none_of_barrier_none env ds' hb] at hfrag
      cases hfrag
    · apply ofList_get_eq_none
      rw [succFrag_keys env ds' frag hfrag]
      exact fun hk' =>
        not_mem_dsKeys_of_ne ds ds' hds (mem_requestedList.1 hmem).1
          (fun he => hne he.symm) k hk hk'

theorem C4_witness :
    (_async_update_data_raw envNoBarrier DataSetType.ALL (some sampleUtc)).1.filter
        (fun ev => ev.dataset == DataSetType.MEASURE) =
      if DataSetType.MEASURE &&& DataSetType.ALL ≠ 0 then
        [Event.ignoredNoBarrier DataSetType.MEASURE]
      else [] :=
  (C4_no_barrier_never_fetched envNoBarrier DataSetType.ALL sampleUtc rfl
      DataSetType.MEASURE (Or.inl rfl) rfl).1

/-- C5: in a tick, `Barrier.success()` is invoked for a dataset exactly
when that dataset was enumerated, its `Barrier.check()` returned without
raising, and its fetch routine completed without raising; skipped, denied
and failing datasets never get a success recorded. -/
theorem C5_success_iff_allowed_and_fetch_ok (env : Env) (datasets : Nat)
    (now : PyDatetime) (hnow : now.tzinfo = some Tz.utc) (ds : Nat) :
    Event.barrierSuccess ds ∈
        (_async_update_data_raw env datasets (some now)).1 ↔
      (ds ∈ requestedList datasets ∧
       env.barriers ds = some BarrierOutcome.allowed ∧
       ∃ frag, fetchOutcome env ds = some (Except.ok frag)) := by
  rw [(raw_trace env datasets now hnow).1]
  constructor
  · intro hmem
    rcases List.mem_flatten.1 hmem with ⟨block, hblock, hev⟩
    rcases List.mem_map.1 hblock with ⟨ds', hds', rfl⟩
    have htag : ds = ds' := eventsOf_dataset env ds' _ hev
    subst htag
    exact ⟨hds', (barrierSuccess_mem_eventsOf_iff env ds).1 hev⟩
  · rintro ⟨hreq, hall, hok⟩
    exact List.mem_flatten.2
      ⟨eventsOf env ds, List.mem_map.2 ⟨ds, hreq, rfl⟩,
       (barrierSuccess_mem_eventsOf_iff env ds).2 ⟨hall, hok⟩⟩

theorem C5_witness :
    Event.barrierSuccess DataSetType.MEASURE ∈
      (_async_update_data_raw envAllOk DataSetType.ALL (some sampleUtc)).1 :=
  (C5_success_iff_allowed_and_fetch_ok envAllOk DataSetType.ALL sampleUtc rfl
      DataSetType.MEASURE).2
    ⟨by decide, rfl,
     ⟨[(DATA_ATTR_MEASURE_ACCUMULATED, Value.int 100),
       (DATA_ATTR_MEASURE_INSTANT, Value.int 7)], rfl⟩⟩

/-- C1: any exception raised by a dispatched dataset's fetch routine is
caught inside the tick: the tick still returns a result map (nothing
propagates), the trace is still the concatenation of every requested
dataset's event block in enumeration order (processing continues), and
the failing dataset contributes no keys to the accumulated result map. -/
theorem C1_fetch_failure_isolated (env : Env) (datasets : Nat)
    (now : PyDatetime) (hnow : now.tzinfo = some Tz.utc) (ds : Nat)
    (e : FetchError) (hreq : ds ∈ requestedList datasets)
    (hbar : env.barriers ds = some BarrierOutcome.allowed)
    (hfail : fetchOutcome env ds = some (Except.error e)) :
    (∃ d, (_async_update_data_raw env datasets (some now)).2 = Except.ok d) ∧
    ((_async_update_data_raw env datasets (some now)).1 =
      ((requestedList datasets).map (eventsOf env)).flatten) ∧
    (∀ d, (_async_update_data_raw env datasets (some now)).2 = Except.ok d →
      ∀ k ∈ dsKeys ds, d.get k = Option.none) := by
  refine ⟨⟨_, (raw_trace env datasets now hnow).2⟩,
    (raw_trace env datasets now hnow).1, ?_⟩
  intro d hd k hk
  refine raw_result_get_none env datasets now hnow k ?_ d hd
  intro ds' hmem frag hfrag
  by_cases hne : ds' = ds
  · subst hne
    rw [succFrag_none_of_error env ds' e hfail] at hfrag
    cases hfrag
  · apply ofList_get_eq_none
    rw [succFrag_keys env ds' frag hfrag]
    exact fun hk' =>
      not_mem_dsKeys_of_ne ds ds' (mem_requestedList.1 hreq).1
        (mem_requestedList.1 hmem).1 (fun he => hne he.symm) k hk hk'

theorem C1_witness :
    ((updateLoop envConsFail Dict.empty (requestedList DataSetType.ALL)).1).get
      DATA_ATTR_HISTORICAL_CONSUMPTION = Option.none :=
  (C1_fetch_failure_isolated envConsFail DataSetType.ALL sampleUtc rfl
      DataSetType.HISTORICAL_CONSUMPTION FetchError.unicodeDecodeError
      (by decide) rfl rfl).2.2
    (updateLoop envConsFail Dict.empty (requestedList DataSetType.ALL)).1 rfl
    DATA_ATTR_HISTORICAL_CONSUMPTION
    (by rw [dsKeys_CONSUMPTION]; exact List.mem_singleton.2 rfl)

/-- C2: merging the tick's result map into the snapshot is a right-biased
shallow merge: a snapshot slot whose key is absent from the result keeps
exactly its pre-tick value — in particular every slot key of a skipped,
denied or failed dataset — and keys present in the result overwrite only
those slots. -/
theorem C2_merge_right_biased (env : Env) (datasets : Nat)
    (now : PyDatetime) (hnow : now.tzinfo = some Tz.utc)
    (self : IDeCoordinator) (updated : Dict)
    (hok : (_async_update_data_raw env datasets (some now)).2 =
      Except.ok updated) :
    (∀ k, updated.get k = Option.none →
      (Dict.update self.data updated).get k = self.data.get k) ∧
    (∀ k v, updated.get k = some v →
      (Dict.update self.data updated).get k = some v) ∧
    (∀ ds, ds ∈ requestedList datasets →
      (env.barriers ds = Option.none ∨
       (∃ reason, env.barriers ds = some (BarrierOutcome.denied reason)) ∨
       (∃ e, fetchOutcome env ds = some (Except.error e))) →
      ∀ k ∈ dsKeys ds,
        (Dict.update self.data updated).get k = self.data.get k) ∧
    (∀ ds, (ds = DataSetType.MEASURE ∨
        ds = DataSetType.HISTORICAL_CONSUMPTION ∨
        ds = DataSetType.HISTORICAL_GENERATION ∨
        ds = DataSetType.HISTORICAL_POWER_DEMAND) →
      ds &&& datasets = 0 →
      ∀ k ∈ dsKeys ds,
        (Dict.update self.data updated).get k = self.data.get k) := by
  have habsent : ∀ ds,
      (ds = DataSetType.MEASURE ∨ ds = DataSetType.HISTORICAL_CONSUMPTION ∨
        ds = DataSetType.HISTORICAL_GENERATION ∨
        ds = DataSetType.HISTORICAL_POWER_DEMAND) →
      (succFrag env ds = Option.none ∨ ds ∉ requestedList datasets) →
      ∀ k ∈ dsKeys ds, updated.get k = Option.none := by
    intro ds hfour hno k hk
    refine raw_result_get_none env datasets now hnow k ?_ updated hok
    intro ds' hmem frag hfrag
    by_cases hne : ds' = ds
    · subst hne
      rcases hno with hsf | hnr
      · rw [hsf] at hfrag; cases hfrag
      · exact absurd hmem hnr
    · apply ofList_get_eq_none
      rw [succFrag_keys env ds' frag hfrag]
      exact fun hk' =>
        not_mem_dsKeys_of_ne ds ds' hfour (mem_requestedList.1 hmem).1
          (fun he => hne he.symm) k hk hk'
  have hupdnone : ∀ k, updated.get k = Option.none →
      (Dict.update self.data updated).get k = self.data.get k := by
    intro k hk
    have hk' : updated k = Option.none := hk
    show Dict.update self.data updated k = self.data k
    unfold Dict.update
    rw [hk']
  refine ⟨hupdnone, ?_, ?_, ?_⟩
  · intro k v hk
    have hk' : updated k = some v := hk
    show Dict.update self.data updated k = some v
    unfold Dict.update
    rw [hk']
  · intro ds hmem hfailed k hk
    refine hupdnone k
      (habsent ds (mem_requestedList.1 hmem).1 (Or.inl ?_) k hk)
    rcases hfailed with hb | ⟨reason, hb⟩ | ⟨e, hf⟩
    · exact succFrag_none_of_barrier_none env ds hb
    · exact succFrag_none_of_denied env ds reason hb
    · exact succFrag_none_of_error env ds e hf
  · intro ds hfour hbit k hk
    refine hupdnone k (habsent ds hfour (Or.inr ?_) k hk)
    intro hc
    exact (mem_requestedList.1 hc).2 hbit

theorem C2_witness :
    (Dict.update initialData
        (updateLoop envConsFail Dict.empty
          (requestedList DataSetType.ALL)).1).get
      DATA_ATTR_HISTORICAL_CONSUMPTION =
      initialData.get DATA_ATTR_HISTORICAL_CONSUMPTION :=
  (C2_merge_right_biased envConsFail DataSetType.ALL sampleUtc rfl
      { data := initialData, sensors := [] }
      (updateLoop envConsFail Dict.empty (requestedList DataSetType.ALL)).1
      rfl).2.2.1
    DataSetType.HISTORICAL_CONSUMPTION (by decide)
    (Or.inr (Or.inr ⟨FetchError.unicodeDecodeError, rfl⟩))
    DATA_ATTR_HISTORICAL_CONSUMPTION (by rw [dsKeys_CONSUMPTION]; exact List.mem_singleton.2 rfl)

/-- C6: the requested bitmask of a registry-driven tick is the bitwise
union of the registered sensors' declared dataset sets (bit-for-bit);
with no sensors registered the mask is `NONE`, the enumeration is empty,
the tick consults no barrier and issues no fetch (empty trace), the raw
result map is empty, and the merged snapshot equals the pre-tick
snapshot pointwise. -/
theorem C6_required_is_union_of_sensors (env : Env) (self : IDeCoordinator) :
    (∀ i : Nat, (requiredDatasets self.sensors).testBit i =
      self.sensors.any (fun s => s.I_DE_DATA_SETS.any (fun d => d.testBit i))) ∧
    (self.sensors = [] →
      requiredDatasets self.sensors = DataSetType.NONE ∧
      requestedList (requiredDatasets self.sensors) = [] ∧
      (_async_update_data env self).1 = [] ∧
      (∀ d, (_async_update_data_raw env (requiredDatasets self.sensors)
          Option.none).2 = Except.ok d → ∀ k, d.get k = Option.none) ∧
      (∀ d, (_async_update_data env self).2 = Except.ok d →
        ∀ k, d.get k = self.data.get k)) := by
  constructor
  · have hinner : ∀ (l : List Nat) (a i : Nat),
        (l.foldl (fun x y => x ||| y) a).testBit i =
          (a.testBit i || l.any (fun d => d.testBit i)) := by
      intro l
      induction l with
      | nil => intro a i; simp
      | cons b rest ih =>
        intro a i
        simp [List.foldl_cons, ih, Nat.testBit_lor, Bool.or_assoc]
    have houter : ∀ (sensors : List IDeEntity) (a i : Nat),
        (sensors.foldl
            (fun ds sensor =>
              sensor.I_DE_DATA_SETS.foldl (fun x y => x ||| y) ds) a).testBit i =
          (a.testBit i ||
            sensors.any (fun s => s.I_DE_DATA_SETS.any (fun d => d.testBit i))) := by
      intro sensors
      induction sensors with
      | nil => intro a i; simp
      | cons s rest ih =>
        intro a i
        simp [List.foldl_cons, ih, hinner, Bool.or_assoc]
    intro i
    have := houter self.sensors DataSetType.NONE i
    unfold requiredDatasets
    rw [this]
    simp [DataSetType.NONE, Nat.zero_testBit]
  · intro hempty
    have hreq0 : requestedList (requiredDatasets ([] : List IDeEntity)) = [] := by
      decide
    have hraw : _async_update_data_raw env
        (requiredDatasets ([] : List IDeEntity)) Option.none =
        ([], Except.ok Dict.empty) := by
      simp only [_async_update_data_raw, Option.getD_none, Env.utcnow]
      rw [hreq0]
      simp only [if_true]
      rfl
    have hda : _async_update_data env self =
        ([], Except.ok (Dict.update self.data Dict.empty)) := by
      simp only [_async_update_data, hempty, hraw]
    refine ⟨by rw [hempty]; rfl, by rw [hempty]; exact hreq0, by rw [hda], ?_, ?_⟩
    · intro d hd
      rw [hempty, hraw] at hd
      obtain rfl := Except.ok.inj hd
      intro k
      rfl
    · intro d hd
      rw [hda] at hd
      obtain rfl := Except.ok.inj hd
      intro k
      rfl

theorem C6_witness :
    (_async_update_data envAllOk { data := initialData, sensors := [] }).1 = [] :=
  ((C6_required_is_union_of_sensors envAllOk
      { data := initialData, sensors := [] }).2 rfl).2.2.1

theorem fetchOutcome_generation (env : Env) :
    fetchOutcome env DataSetType.HISTORICAL_GENERATION =
      some (get_historical_generation_data env).2 := by
  unfold fetchOutcome
  rw [if_neg (by decide :
        ¬(DataSetType.HISTORICAL_GENERATION = DataSetType.MEASURE)),
    if_neg (by decide :
        ¬(DataSetType.HISTORICAL_GENERATION = DataSetType.HISTORICAL_CONSUMPTION)),
    if_pos rfl]

theorem apiCall_mem_eventsOf_generation (env : Env)
    (hbar : env.barriers DataSetType.HISTORICAL_GENERATION =
      some BarrierOutcome.allowed) :
    Event.apiCall DataSetType.HISTORICAL_GENERATION
        (ApiCall.getHistoricalGeneration
          (env.today - HISTORICAL_PERIOD_LENGHT) env.today) ∈
      eventsOf env DataSetType.HISTORICAL_GENERATION := by
  unfold eventsOf processDataset
  simp only [hbar, if_true]
  unfold get_historical_generation_data step
  cases h : env.api.historicalGeneration <;>
    (rw [if_neg (by decide :
          ¬(DataSetType.HISTORICAL_GENERATION = DataSetType.MEASURE)),
       if_neg (by decide :
          ¬(DataSetType.HISTORICAL_GENERATION = DataSetType.HISTORICAL_CONSUMPTION))];
     simp [h])

/-- C8: timestamp normalization of historical line-items is a pure
timezone annotation in the configured local zone: every wall-clock field
of `start`/`end` (period items) and `dt` (dated items) is unchanged and
the result carries `LOCAL_TZ`; and the consumption / power-demand fetch
routines place exactly the item-wise-normalized record into the returned
fragment. -/
theorem C8_normalization_attaches_local_tz (env : Env) :
    (∀ item : PeriodItem,
      wallEq (normalize_period_item item).start item.start ∧
      (normalize_period_item item).start.tzinfo = some LOCAL_TZ ∧
      wallEq (normalize_period_item item).«end» item.«end» ∧
      (normalize_period_item item).«end».tzinfo = some LOCAL_TZ) ∧
    (∀ item : DatedItem,
      wallEq (normalize_dated_item item).dt item.dt ∧
      (normalize_dated_item item).dt.tzinfo = some LOCAL_TZ) ∧
    (∀ rec, env.api.historicalConsumption = Except.ok rec →
      (get_historical_consumption_data env).2 =
        Except.ok [(DATA_ATTR_HISTORICAL_CONSUMPTION,
          Value.consumption
            { rec with periods := rec.periods.map normalize_period_item })]) ∧
    (∀ rec, env.api.historicalPowerDemand = Except.ok rec →
      (get_historical_power_demand_data env).2 =
        Except.ok [(DATA_ATTR_HISTORICAL_POWER_DEMAND,
          Value.powerDemand
            { rec with demands := rec.demands.map normalize_dated_item })]) := by
  refine ⟨?_, ?_, ?_, ?_⟩
  · intro item
    exact ⟨⟨rfl, rfl, rfl, rfl, rfl, rfl, rfl⟩, rfl,
      ⟨rfl, rfl, rfl, rfl, rfl, rfl, rfl⟩, rfl⟩
  · intro item
    exact ⟨⟨rfl, rfl, rfl, rfl, rfl, rfl, rfl⟩, rfl⟩
  · intro rec hrec
    simp [get_historical_consumption_data, hrec]
  · intro rec hrec
    simp [get_historical_power_demand_data, hrec]

theorem C8_witness :
    (get_historical_consumption_data envAllOk).2 =
      Except.ok [(DATA_ATTR_HISTORICAL_CONSUMPTION,
        Value.consumption
          { sampleConsumption with
              periods := sampleConsumption.periods.map normalize_period_item })] :=
  (C8_normalization_attaches_local_tz envAllOk).2.2.1 sampleConsumption rfl

/-- C9 counterexample: when the upstream generation request itself raises
(here an upstream request failure), the generation fetch routine fails
with that upstream error, not with "not implemented" — so "always fails
with not implemented" is false as literally stated. -/
theorem C9_counterexample :
    (get_historical_generation_data genFailEnv).2 =
        Except.error (FetchError.requestFailedError 500 ("server error")) ∧
      (Except.error (FetchError.requestFailedError 500 ("server error")) :
          Except FetchError (List (String × Value))) ≠
        Except.error FetchError.notImplementedError :=
  ⟨rfl, fun h => FetchError.noConfusion (Except.error.inj h)⟩

/-- C9 (amended): the generation fetch routine never succeeds — it fails
with `NotImplementedError` whenever the upstream request completes, and
with the upstream error otherwise; any tick requesting the dataset still
completes without raising, the generation slot keeps its prior snapshot
value (absent if never populated), the dataset contributes no keys to the
result map, and its barrier success is never recorded. -/
theorem C9_generation_always_fails (env : Env) (datasets : Nat)
    (now : PyDatetime) (hnow : now.tzinfo = some Tz.utc)
    (self : IDeCoordinator) :
    (∀ frag, (get_historical_generation_data env).2 ≠ Except.ok frag) ∧
    (∀ g, env.api.historicalGeneration = Except.ok g →
      (get_historical_generation_data env).2 =
        Except.error FetchError.notImplementedError) ∧
    (∃ d, (_async_update_data_raw env datasets (some now)).2 = Except.ok d) ∧
    (∀ d, (_async_update_data_raw env datasets (some now)).2 = Except.ok d →
      d.get DATA_ATTR_HISTORICAL_GENERATION = Option.none ∧
      (Dict.update self.data d).get DATA_ATTR_HISTORICAL_GENERATION =
        self.data.get DATA_ATTR_HISTORICAL_GENERATION) ∧
    (Event.barrierSuccess DataSetType.HISTORICAL_GENERATION ∉
      (_async_update_data_raw env datasets (some now)).1) := by
  refine ⟨?_, ?_, ⟨_, (raw_trace env datasets now hnow).2⟩, ?_, ?_⟩
  · intro frag
    cases h : env.api.historicalGeneration <;>
      simp [get_historical_generation_data, h]
  · intro g hg
    simp [get_historical_generation_data, hg]
  · intro d hd
    have hnonekey : d.get DATA_ATTR_HISTORICAL_GENERATION = Option.none := by
      refine raw_result_get_none env datasets now hnow _ ?_ d hd
      intro ds' hmem frag hfrag
      by_cases hne : ds' = DataSetType.HISTORICAL_GENERATION
      · subst hne
        rw [succFrag_generation env] at hfrag
        cases hfrag
      · apply ofList_get_eq_none
        rw [succFrag_keys env ds' frag hfrag]
        refine fun hk' =>
          not_mem_dsKeys_of_ne DataSetType.HISTORICAL_GENERATION ds'
            (Or.inr (Or.inr (Or.inl rfl))) (mem_requestedList.1 hmem).1
            (fun he => hne he.symm) _ ?_ hk'
        rw [dsKeys_GENERATION]
        exact List.mem_singleton.2 rfl
    refine ⟨hnonekey, ?_⟩
    have hk' : d DATA_ATTR_HISTORICAL_GENERATION = Option.none := hnonekey
    show Dict.update self.data d DATA_ATTR_HISTORICAL_GENERATION =
      self.data DATA_ATTR_HISTORICAL_GENERATION
    unfold Dict.update
    rw [hk']
  · intro hmem
    rw [(raw_trace env datasets now hnow).1] at hmem
    rcases List.mem_flatten.1 hmem with ⟨block, hblock, hev⟩
    rcases List.mem_map.1 hblock with ⟨ds', hds', rfl⟩
    have htag : DataSetType.HISTORICAL_GENERATION = ds' :=
      eventsOf_dataset env ds' _ hev
    subst htag
    rcases (barrierSuccess_mem_eventsOf_iff env _).1 hev with ⟨hall, frag, hfo⟩
    rw [fetchOutcome_generation env] at hfo
    have hgen := Option.some.inj hfo
    cases h : env.api.historicalGeneration <;>
      simp [get_historical_generation_data, h] at hgen

theorem C9_witness :
    (get_historical_generation_data envAllOk).2 =
      Except.error FetchError.notImplementedError :=
  (C9_generation_always_fails envAllOk DataSetType.ALL sampleUtc rfl
      { data := initialData, sensors := [] }).2.1 sampleGeneration rfl

/-- C10: every invocation of the generation fetch routine performs the
real upstream request over the trailing window first — its upstream-call
list is exactly the windowed `get_historical_generation(start, end)`
call — and it never returns a fragment: it fails with the upstream error
when that request raises, and raises `NotImplementedError` only after the
request completes; consequently every tick that dispatches the dataset
(barrier allowing) still issues the upstream call. -/
theorem C10_generation_still_calls_upstream (env : Env) (datasets : Nat)
    (now : PyDatetime) (hnow : now.tzinfo = some Tz.utc)
    (hreq : DataSetType.HISTORICAL_GENERATION ∈ requestedList datasets)
    (hbar : env.barriers DataSetType.HISTORICAL_GENERATION =
      some BarrierOutcome.allowed) :
    ((get_historical_generation_data env).1 =
      [ApiCall.getHistoricalGeneration
        (env.today - HISTORICAL_PERIOD_LENGHT) env.today]) ∧
    (∀ g, env.api.historicalGeneration = Except.ok g →
      (get_historical_generation_data env).2 =
        Except.error FetchError.notImplementedError) ∧
    (∀ e, env.api.historicalGeneration = Except.error e →
      (get_historical_generation_data env).2 = Except.error e) ∧
    (∀ frag, (get_historical_generation_data env).2 ≠ Except.ok frag) ∧
    (Event.apiCall DataSetType.HISTORICAL_GENERATION
        (ApiCall.getHistoricalGeneration
          (env.today - HISTORICAL_PERIOD_LENGHT) env.today) ∈
      (_async_update_data_raw env datasets (some now)).1) := by
  refine ⟨rfl, ?_, ?_, ?_, ?_⟩
  · intro g hg
    simp [get_historical_generation_data, hg]
  · intro e he
    simp [get_historical_generation_data, he]
  · intro frag
    cases h : env.api.historicalGeneration <;>
      simp [get_historical_generation_data, h]
  · rw [(raw_trace env datasets now hnow).1]
    exact List.mem_flatten.2
      ⟨eventsOf env DataSetType.HISTORICAL_GENERATION,
       List.mem_map.2 ⟨DataSetType.HISTORICAL_GENERATION, hreq, rfl⟩,
       apiCall_mem_eventsOf_generation env hbar⟩

theorem C10_witness :
    Event.apiCall DataSetType.HISTORICAL_GENERATION
        (ApiCall.getHistoricalGeneration
          (envAllOk.today - HISTORICAL_PERIOD_LENGHT) envAllOk.today) ∈
      (_async_update_data_raw envAllOk DataSetType.ALL (some sampleUtc)).1 :=
  (C10_generation_still_calls_upstream envAllOk DataSetType.ALL sampleUtc rfl
      (by decide) rfl).2.2.2.2

end IdeEnergy
